import Mathlib

/-!
Verification of the trustcard scoring engine and pipeline orchestrator.

This file shallowly embeds the Python sources of the repository:

* `app/config/scoring_config.py`  — weight/threshold configuration, grade table
* `app/services/trust_score_calculator.py` — the trust score engine
* `app/services/cache_manager.py` — the advisory Redis cache layer
* `app/services/crud_analysis.py` — persistence operations on the job row
* `app/tasks/analysis_tasks.py`  — the pipeline orchestrator and its
  chord continuation (`process_instagram_post`, `complete_analysis`)

Numbers that are `float` in Python are modelled as exact rationals (`ℚ`);
`round(x, 2)` is modelled as exact decimal rounding with the half-to-even
tie rule that Python uses.  Python dictionaries are modelled as structures
whose fields record exactly the keys the embedded code reads, with
`Option` marking keys that may be absent (`dict.get` defaults are applied
at the use sites, mirroring the source).
-/

/-! ## Configuration (`app/config/scoring_config.py`) -/

/-- Embeds `AIDetectionWeights` — weights for AI-generated content detection. -/
structure AIDetectionWeights where
  max_penalty : ℚ := 30
  confidence_multiplier : ℚ := 1
deriving DecidableEq

/-- Embeds `DeepfakeWeights` — weights for deepfake/manipulation detection. -/
structure DeepfakeWeights where
  deepfake_penalty : ℚ := 40
deriving DecidableEq

/-- Embeds `FactCheckWeights` — weights for fact-checking analysis. -/
structure FactCheckWeights where
  high_credibility_threshold : ℚ := 80
  questionable_threshold : ℚ := 70
  low_credibility_threshold : ℚ := 50
  low_credibility_multiplier : ℚ := (4/5 : ℚ)
  questionable_multiplier : ℚ := (1/2 : ℚ)
  high_credibility_multiplier : ℚ := (1/5 : ℚ)
  medical_claims_penalty : ℚ := 15
  conspiracy_language_penalty : ℚ := 12
  urgent_language_penalty : ℚ := 8
  absolutist_claims_penalty : ℚ := 6
  unverified_sources_penalty : ℚ := 10
  emotional_manipulation_penalty : ℚ := 7
  sensationalism_penalty : ℚ := 5
deriving DecidableEq

/-- Embeds `SourceCredibilityWeights` — weights for source credibility evaluation. -/
structure SourceCredibilityWeights where
  conspiracy_sources_penalty : ℚ := 25
  unreliable_sources_penalty : ℚ := 20
  satire_penalty : ℚ := 15
  low_reliability_threshold : ℚ := (1/2 : ℚ)
  high_reliability_threshold : ℚ := (7/10 : ℚ)
  low_reliability_multiplier : ℚ := 20
  high_reliability_multiplier : ℚ := 10
deriving DecidableEq

/-- Embeds `GradeThresholds` — grade conversion thresholds (below `d_minus` is F). -/
structure GradeThresholds where
  a_plus : ℚ := 95
  a : ℚ := 90
  a_minus : ℚ := 85
  b_plus : ℚ := 80
  b : ℚ := 75
  b_minus : ℚ := 70
  c_plus : ℚ := 65
  c : ℚ := 60
  c_minus : ℚ := 55
  d_plus : ℚ := 50
  d : ℚ := 45
  d_minus : ℚ := 40
deriving DecidableEq

/-- Embeds `TrustScoreConfig` — master configuration.  In Python the nested
dataclass fields default to `None` and `__post_init__` replaces `None` by
the default sub-configuration; modelled directly by structure defaults. -/
structure TrustScoreConfig where
  base_score : ℚ := 100
  ai_detection : AIDetectionWeights := {}
  deepfake : DeepfakeWeights := {}
  fact_check : FactCheckWeights := {}
  source_credibility : SourceCredibilityWeights := {}
  grade_thresholds : GradeThresholds := {}
deriving DecidableEq

/-- Embeds `DEFAULT_CONFIG = TrustScoreConfig()`. -/
def DEFAULT_CONFIG : TrustScoreConfig := {}

/-- Embeds `get_grade_from_score(score, config)` — convert a numerical trust score
to a letter grade via the descending if/elif chain of the source. -/
def get_grade_from_score (score : ℚ) (config : TrustScoreConfig) : String :=
  let thresholds := config.grade_thresholds
  if thresholds.a_plus ≤ score then "A+"
  else if thresholds.a ≤ score then "A"
  else if thresholds.a_minus ≤ score then "A-"
  else if thresholds.b_plus ≤ score then "B+"
  else if thresholds.b ≤ score then "B"
  else if thresholds.b_minus ≤ score then "B-"
  else if thresholds.c_plus ≤ score then "C+"
  else if thresholds.c ≤ score then "C"
  else if thresholds.c_minus ≤ score then "C-"
  else if thresholds.d_plus ≤ score then "D+"
  else if thresholds.d ≤ score then "D"
  else if thresholds.d_minus ≤ score then "D-"
  else "F"

/-- Grade descriptions (`get_grade_description`): description, color, emoji;
unknown grades fall back to a defensive default entry. -/
structure GradeInfo where
  description : String
  color : String
  emoji : String
deriving DecidableEq

/-- Embeds `get_grade_description(grade)` — lookup keyed by grade with an
"Unknown" default.  (Emoji payloads are abbreviated to ASCII tags; they are
uninterpreted display data never consumed by the embedded logic.) -/
def get_grade_description (grade : String) : GradeInfo :=
  if grade = "A+" then ⟨"Excellent - Highly trustworthy content", "#059669", "check"⟩
  else if grade = "A" then ⟨"Excellent - Very trustworthy", "#10b981", "check"⟩
  else if grade = "A-" then ⟨"Very Good - Trustworthy", "#34d399", "check"⟩
  else if grade = "B+" then ⟨"Good - Generally trustworthy", "#22c55e", "thumbsup"⟩
  else if grade = "B" then ⟨"Good - Mostly reliable", "#84cc16", "thumbsup"⟩
  else if grade = "B-" then ⟨"Satisfactory - Some concerns", "#a3e635", "thumbsup"⟩
  else if grade = "C+" then ⟨"Fair - Multiple concerns", "#facc15", "warn"⟩
  else if grade = "C" then ⟨"Fair - Questionable reliability", "#fbbf24", "warn"⟩
  else if grade = "C-" then ⟨"Poor - Significant concerns", "#fb923c", "warn"⟩
  else if grade = "D+" then ⟨"Poor - Low credibility", "#f97316", "cross"⟩
  else if grade = "D" then ⟨"Very Poor - Not trustworthy", "#ef4444", "cross"⟩
  else if grade = "D-" then ⟨"Very Poor - Unreliable", "#dc2626", "cross"⟩
  else if grade = "F" then ⟨"Failing - Highly unreliable", "#991b1b", "cross"⟩
  else ⟨"Unknown", "#6b7280", "question"⟩

/-! ## Model of Python `round(x, 2)` (exact decimal, half-to-even ties) -/

/-- Round a rational to the nearest integer, ties to even (the Python
`round` tie rule). -/
def roundHalfEven (x : ℚ) : ℤ :=
  if x - (⌊x⌋ : ℚ) < 1/2 then ⌊x⌋
  else if 1/2 < x - (⌊x⌋ : ℚ) then ⌊x⌋ + 1
  else if ⌊x⌋ % 2 = 0 then ⌊x⌋ else ⌊x⌋ + 1

/-- Model of Python `round(x, 2)`: round to two decimal places. -/
def round2 (x : ℚ) : ℚ := (roundHalfEven (100 * x) : ℚ) / 100

/-! ## Python string helpers

`_process_fact_checking` tests `"MEDICAL_CLAIMS" in str(fact_flags)` — a
substring test against the Python string rendering of the flags list —
while every other red flag uses list membership.  We model `str(list)` and
the `in` substring operator exactly. -/

/-- Python `repr` of a simple string: wrap in single quotes (the red-flag
names contain no characters that Python would escape). -/
def pyReprStr (s : String) : String := "\x27" ++ s ++ "\x27"

/-- Python `str` of a list of strings, e.g. `str(["A","B"])`. -/
def pyReprStrList (l : List String) : String :=
  "[" ++ String.intercalate ", " (l.map pyReprStr) ++ "]"

/-- Does the second char list start with the first? -/
def chStarts : List Char → List Char → Bool
  | [], _ => true
  | _ :: _, [] => false
  | a :: as, b :: bs => a == b && chStarts as bs

/-- Does the needle occur anywhere in the haystack? -/
def chFind (needle : List Char) : List Char → Bool
  | [] => needle.isEmpty
  | c :: rest => chStarts needle (c :: rest) || chFind needle rest

/-- Python `needle in haystack` on strings (substring containment). -/
def pyIn (needle haystack : String) : Bool := chFind needle.data haystack.data

/-- Model of Python `f"{q:.0%}"`: percentage with zero decimals. -/
def fmtPercent0 (q : ℚ) : String := toString (roundHalfEven (100 * q)) ++ "%"

/-- Model of Python `f"{q:.0f}"`: fixed-point with zero decimals. -/
def fmtFixed0 (q : ℚ) : String := toString (roundHalfEven q)

/-! ## Data model (`app/services/trust_score_calculator.py`)

The analysis `results` dictionary and its per-stage sub-dictionaries are
modelled as structures listing exactly the keys the calculator reads; a
field is `Option` (or defaulted `Bool`/`List`) when the code reads it with
`dict.get`.  A missing sub-dictionary (`results.get(k, {})`) is the `none`
case, resolved with `Option.getD {}` at the use site just as the source
applies the `{}` default. -/

/-- Metadata values stored in `ScoreAdjustment.metadata`. -/
inductive MetaV where
  | num (q : ℚ)
  | str (s : String)
  | tbl (entries : List (String × ℚ))
deriving DecidableEq

/-- Embeds `ScoreAdjustment` — a single score adjustment (penalty or bonus). -/
structure ScoreAdjustment where
  component : String
  category : String
  impact : ℚ
  reason : String
  metadata : List (String × MetaV) := []
deriving DecidableEq

/-- Embeds `TrustScoreResult` — complete trust score calculation result. -/
structure TrustScoreResult where
  final_score : ℚ
  grade : String
  grade_info : GradeInfo
  adjustments : List ScoreAdjustment
  component_scores : List (String × ℚ)
  total_penalties : ℚ
  total_bonuses : ℚ
  flags : List String
  requires_review : Bool
deriving DecidableEq

/-- The `overall` sub-dictionary of an AI-detection stage result. -/
structure AIOverall where
  overall_ai_detected : Bool := false
  confidence : Option ℚ := none
  ai_images : Option ℚ := none
  total_images : Option ℚ := none
deriving DecidableEq

/-- AI-detection stage result dictionary. -/
structure AIStage where
  status : Option String := none
  overall : Option AIOverall := none
  error : Option String := none
deriving DecidableEq

/-- The `summary` sub-dictionary of an OCR stage result (read only for
logging by the calculator). -/
structure OCRSummary where
  has_text : Bool := false
  total_words_extracted : Option ℚ := none
deriving DecidableEq

/-- OCR stage result dictionary. -/
structure OCRStage where
  status : Option String := none
  summary : Option OCRSummary := none
  error : Option String := none
deriving DecidableEq

/-- Deepfake stage result dictionary.  `analysis` is an uninterpreted payload the
calculator copies verbatim into adjustment metadata. -/
structure DeepfakeStage where
  status : Option String := none
  is_deepfake : Bool := false
  analysis : List (String × ℚ) := []
  error : Option String := none
deriving DecidableEq

/-- The `credibility_analysis` sub-dictionary of a fact-check result. -/
structure CredibilityAnalysis where
  score : Option ℚ := none
deriving DecidableEq

/-- The `claim_extraction` sub-dictionary of a fact-check result (read by
the continuation to decide claim verification; the calculator ignores it). -/
structure ClaimExtraction where
  has_claims : Bool := false
deriving DecidableEq

/-- Fact-check stage result dictionary. -/
structure FactCheckStage where
  status : Option String := none
  credibility_analysis : Option CredibilityAnalysis := none
  flags : List String := []
  requires_manual_review : Bool := false
  claim_extraction : Option ClaimExtraction := none
  analyzed_claims : List String := []
  error : Option String := none
deriving DecidableEq

/-- The `assessment` sub-dictionary of a source-credibility result. -/
structure Assessment where
  has_conspiracy : Bool := false
  has_unreliable_sources : Bool := false
  has_satire : Bool := false
  avg_reliability_score : Option ℚ := none
deriving DecidableEq

/-- Source-credibility stage result dictionary. -/
structure SourceCredStage where
  status : Option String := none
  assessment : Option Assessment := none
  error : Option String := none
deriving DecidableEq

/-- The stage-result bundle handed to `calculate_trust_score` (the keys of
the `results` dictionary that the calculator reads). -/
structure AnalysisResults where
  ai_detection : Option AIStage := none
  ocr : Option OCRStage := none
  deepfake : Option DeepfakeStage := none
  fact_check : Option FactCheckStage := none
  source_credibility : Option SourceCredStage := none
deriving DecidableEq

/-! ## The trust score engine -/

/-- Embeds `TrustScoreCalculator._process_ai_detection`. -/
def processAiDetection (config : TrustScoreConfig) (o : Option AIStage) :
    List ScoreAdjustment :=
  let ai_detection := o.getD {}
  if ai_detection.status ≠ some "completed" then []
  else
    let overall := ai_detection.overall.getD {}
    if overall.overall_ai_detected then
      let confidence := overall.confidence.getD 0
      let penalty := -confidence * config.ai_detection.max_penalty
      [{ component := "AI Detection"
         category := "AI-Generated Content"
         impact := penalty
         reason := "AI-generated content detected with " ++ fmtPercent0 confidence ++
           " confidence"
         metadata := [("confidence", .num confidence),
           ("ai_images", .num (overall.ai_images.getD 0)),
           ("total_images", .num (overall.total_images.getD 0))] }]
    else []

/-- Embeds `TrustScoreCalculator._process_ocr` — informational only, emits no
adjustment on any input (its body only logs). -/
def processOcr (_o : Option OCRStage) : List ScoreAdjustment := []

/-- Embeds `TrustScoreCalculator._process_deepfake`. -/
def processDeepfake (config : TrustScoreConfig) (o : Option DeepfakeStage) :
    List ScoreAdjustment :=
  let deepfake := o.getD {}
  if deepfake.status ≠ some "completed" then []
  else if deepfake.is_deepfake then
    [{ component := "Deepfake Detection"
       category := "Deepfake/Manipulation"
       impact := -config.deepfake.deepfake_penalty
       reason := "Video or image manipulation detected"
       metadata := [("analysis", .tbl deepfake.analysis)] }]
  else []

/-- The credibility-band part of `_process_fact_checking` (the
`if/elif/elif` chain on `credibility_score`). -/
def fcBand (weights : FactCheckWeights) (credibility_score : ℚ) :
    List ScoreAdjustment :=
  if credibility_score < weights.low_credibility_threshold then
    [{ component := "Fact-Checking"
       category := "Low Credibility"
       impact := (-(50 - credibility_score)) * weights.low_credibility_multiplier
       reason := "Claims show low credibility (score: " ++ fmtFixed0 credibility_score ++
         "/100)"
       metadata := [("credibility_score", .num credibility_score)] }]
  else if credibility_score < weights.questionable_threshold then
    [{ component := "Fact-Checking"
       category := "Questionable Credibility"
       impact := (-(70 - credibility_score)) * weights.questionable_multiplier
       reason := "Claims show questionable credibility (score: " ++
         fmtFixed0 credibility_score ++ "/100)"
       metadata := [("credibility_score", .num credibility_score)] }]
  else if weights.high_credibility_threshold ≤ credibility_score then
    [{ component := "Fact-Checking"
       category := "High Credibility"
       impact := (credibility_score - 80) * weights.high_credibility_multiplier
       reason := "Claims show high credibility (score: " ++
         fmtFixed0 credibility_score ++ "/100)"
       metadata := [("credibility_score", .num credibility_score)] }]
  else []

/-- Embeds `TrustScoreCalculator._process_fact_checking`.  Returns
`(adjustments, flags, requires_review)`.  Each red-flag test appends a
single adjustment when its condition holds, in source order; the medical
test is `"MEDICAL_CLAIMS" in str(fact_flags)` (substring of the string rendering
of the list) whereas all the others are list membership. -/
def processFactChecking (config : TrustScoreConfig) (o : Option FactCheckStage) :
    List ScoreAdjustment × List String × Bool :=
  let fact_check := o.getD {}
  if fact_check.status ≠ some "completed" then ([], [], false)
  else
    let credibility := fact_check.credibility_analysis.getD {}
    let credibility_score := credibility.score.getD 70
    let weights := config.fact_check
    let fact_flags := fact_check.flags
    let medicalHit := pyIn "MEDICAL_CLAIMS" (pyReprStrList fact_flags)
    let adjustments :=
      fcBand weights credibility_score
      ++ (if medicalHit then
            [⟨"Fact-Checking", "Medical Claims", -weights.medical_claims_penalty,
              "Medical or health claims without verification", []⟩] else [])
      ++ (if fact_flags.contains "CONSPIRACY_LANGUAGE" then
            [⟨"Fact-Checking", "Conspiracy Language", -weights.conspiracy_language_penalty,
              "Conspiracy theory language detected", []⟩] else [])
      ++ (if fact_flags.contains "URGENT_LANGUAGE" then
            [⟨"Fact-Checking", "Urgent Language", -weights.urgent_language_penalty,
              "Urgent/alarmist language detected", []⟩] else [])
      ++ (if fact_flags.contains "ABSOLUTIST_CLAIMS" then
            [⟨"Fact-Checking", "Absolutist Claims", -weights.absolutist_claims_penalty,
              "Absolutist language (always/never) detected", []⟩] else [])
      ++ (if fact_flags.contains "UNVERIFIED_SOURCES" then
            [⟨"Fact-Checking", "Unverified Sources", -weights.unverified_sources_penalty,
              "Unverified or anonymous sources cited", []⟩] else [])
      ++ (if fact_flags.contains "EMOTIONAL_MANIPULATION" then
            [⟨"Fact-Checking", "Emotional Manipulation", -weights.emotional_manipulation_penalty,
              "Emotionally manipulative language detected", []⟩] else [])
      ++ (if fact_flags.contains "SENSATIONALISM" then
            [⟨"Fact-Checking", "Sensationalism", -weights.sensationalism_penalty,
              "Sensationalist language detected", []⟩] else [])
    let flags :=
      (if medicalHit then ["Medical claims require verification"] else [])
      ++ (if fact_flags.contains "CONSPIRACY_LANGUAGE" then
            ["Conspiracy theory language detected"] else [])
      ++ (if fact_check.requires_manual_review then ["Flagged for manual review"] else [])
    (adjustments, flags, fact_check.requires_manual_review)

/-- Embeds `TrustScoreCalculator._process_source_credibility`.  Returns
`(adjustments, flags)`; the four branches are mutually exclusive
(`if/elif/elif/else` in the source). -/
def processSourceCredibility (config : TrustScoreConfig) (o : Option SourceCredStage) :
    List ScoreAdjustment × List String :=
  let source_cred := o.getD {}
  if source_cred.status ≠ some "completed" then ([], [])
  else
    let assessment := source_cred.assessment.getD {}
    let weights := config.source_credibility
    if assessment.has_conspiracy then
      ([⟨"Source Credibility", "Conspiracy Sources", -weights.conspiracy_sources_penalty,
         "Links to known conspiracy theory websites", []⟩],
       ["Conspiracy theory sources detected"])
    else if assessment.has_unreliable_sources then
      ([⟨"Source Credibility", "Unreliable Sources", -weights.unreliable_sources_penalty,
         "Links to unreliable or low-credibility sources", []⟩],
       ["Unreliable sources detected"])
    else if assessment.has_satire then
      ([⟨"Source Credibility", "Satire Content", -weights.satire_penalty,
         "Links to satire/parody content (may be mistaken as factual)", []⟩],
       ["Satire content detected"])
    else
      let avg_reliability := assessment.avg_reliability_score.getD (1/2 : ℚ)
      if avg_reliability < weights.low_reliability_threshold then
        ([{ component := "Source Credibility"
            category := "Low Source Reliability"
            impact := (-((1/2 : ℚ) - avg_reliability)) * weights.low_reliability_multiplier
            reason := "Sources have low average reliability (" ++
              fmtPercent0 avg_reliability ++ ")"
            metadata := [("avg_reliability", .num avg_reliability)] }], [])
      else if weights.high_reliability_threshold < avg_reliability then
        ([{ component := "Source Credibility"
            category := "High Source Reliability"
            impact := (avg_reliability - (7/10 : ℚ)) * weights.high_reliability_multiplier
            reason := "Sources have high reliability (" ++
              fmtPercent0 avg_reliability ++ ")"
            metadata := [("avg_reliability", .num avg_reliability)] }], [])
      else ([], [])

/-- Accumulate one adjustment into the insertion-ordered component map
(`_calculate_component_scores` loop body). -/
def addComponent : List (String × ℚ) → String → ℚ → List (String × ℚ)
  | [], c, v => [(c, v)]
  | (k, x) :: rest, c, v =>
    if k = c then (k, x + v) :: rest else (k, x) :: addComponent rest c v

/-- Embeds `TrustScoreCalculator._calculate_component_scores`. -/
def calculateComponentScores (adjustments : List ScoreAdjustment) :
    List (String × ℚ) :=
  (adjustments.foldl (fun m adj => addComponent m adj.component adj.impact) []).map
    (fun kv => (kv.1, round2 kv.2))

/-- Sum of all adjustment impacts. -/
def sumImpacts (adjustments : List ScoreAdjustment) : ℚ :=
  (adjustments.map (fun a => a.impact)).sum

/-- Sum of the negative impacts (`total_penalties` before rounding). -/
def sumPenalties (adjustments : List ScoreAdjustment) : ℚ :=
  ((adjustments.filter (fun a => a.impact < 0)).map (fun a => a.impact)).sum

/-- Sum of the positive impacts (`total_bonuses` before rounding). -/
def sumBonuses (adjustments : List ScoreAdjustment) : ℚ :=
  ((adjustments.filter (fun a => 0 < a.impact)).map (fun a => a.impact)).sum

/-- Embeds `TrustScoreCalculator.calculate_trust_score`: process every component,
fold the impacts into the base score, clamp to `[0, 100]`, grade at the
clamped (unrounded) score, and report `round(score, 2)`. -/
def calculate_trust_score (config : TrustScoreConfig) (results : AnalysisResults) :
    TrustScoreResult :=
  let adjustments :=
    processAiDetection config results.ai_detection
    ++ processOcr results.ocr
    ++ processDeepfake config results.deepfake
    ++ (processFactChecking config results.fact_check).1
    ++ (processSourceCredibility config results.source_credibility).1
  let flags := (processFactChecking config results.fact_check).2.1
    ++ (processSourceCredibility config results.source_credibility).2
  let requires_review := (processFactChecking config results.fact_check).2.2
  let score := config.base_score + sumImpacts adjustments
  let score := max 0 (min 100 score)
  let grade := get_grade_from_score score config
  { final_score := round2 score
    grade := grade
    grade_info := get_grade_description grade
    adjustments := adjustments
    component_scores := calculateComponentScores adjustments
    total_penalties := round2 (sumPenalties adjustments)
    total_bonuses := round2 (sumBonuses adjustments)
    flags := flags
    requires_review := requires_review }

/-! ## Cache manager (`app/services/cache_manager.py`)

`CacheManager` holds `redis_client`, which is `None` when the initial
connection failed.  Every operation first checks the client and wraps the
Redis calls (and JSON (de)serialization) in `try/except`.  We model the
Redis side as an oracle whose operations either return a value or raise;
an `Except.error` outcome covers connection errors, Redis errors and JSON
decoding errors alike, since the `except Exception` in the source treats them
all the same way. -/

/-- The payload cached under the analysis key (`cache_data` assembled in
`complete_analysis`): the aggregated results dictionary is uninterpreted to the
cache and orchestration layers and is modelled as a blob. -/
structure CachedAnalysis where
  results : Option String := none
  trust_score : Option ℚ := none
  grade : Option String := none
deriving DecidableEq

/-- Instagram post metadata (`post_info`), recording the keys the
orchestrator reads.  `user` is an uninterpreted blob forwarded to source
evaluation. -/
structure PostInfo where
  error : Option String := none
  images : List String := []
  videos : List String := []
  caption : Option String := none
  ptype : Option String := none
  user : Option String := none
deriving DecidableEq

/-- Oracle for the Redis client: each operation either succeeds or raises. -/
structure RedisOracle where
  getAnalysisOp : String → Except String (Option CachedAnalysis)
  setAnalysisOp : String → CachedAnalysis → Except String Unit
  getContentOp : String → Except String (Option PostInfo)
  setContentOp : String → PostInfo → Except String Unit

/-- Embeds `CacheManager._get_analysis_key`. -/
def analysisKey (instagram_url : String) : String :=
  "trustcard:analysis:" ++ instagram_url

/-- Embeds `CacheManager._get_instagram_content_key`. -/
def instagramContentKey (post_id : String) : String :=
  "trustcard:instagram:" ++ post_id

/-- Embeds `CacheManager.get_cached_analysis`: `None` when the client is absent,
when the Redis/JSON operation raises, or on a miss. -/
def get_cached_analysis (client : Option RedisOracle) (instagram_url : String) :
    Option CachedAnalysis :=
  match client with
  | none => none
  | some r =>
    match r.getAnalysisOp (analysisKey instagram_url) with
    | .error _ => none
    | .ok none => none
    | .ok (some v) => some v

/-- Embeds `CacheManager.cache_analysis_result`: `False` when the client is absent
or the Redis/JSON operation raises, `True` on success; never raises. -/
def cache_analysis_result (client : Option RedisOracle) (instagram_url : String)
    (analysis_data : CachedAnalysis) : Bool :=
  match client with
  | none => false
  | some r =>
    match r.setAnalysisOp (analysisKey instagram_url) analysis_data with
    | .error _ => false
    | .ok _ => true

/-- Embeds `CacheManager.get_cached_instagram_content`. -/
def get_cached_instagram_content (client : Option RedisOracle) (post_id : String) :
    Option PostInfo :=
  match client with
  | none => none
  | some r =>
    match r.getContentOp (instagramContentKey post_id) with
    | .error _ => none
    | .ok none => none
    | .ok (some v) => some v

/-- Embeds `CacheManager.cache_instagram_content`. -/
def cache_instagram_content (client : Option RedisOracle) (post_id : String)
    (content : PostInfo) : Bool :=
  match client with
  | none => false
  | some r =>
    match r.setContentOp (instagramContentKey post_id) content with
    | .error _ => false
    | .ok _ => true

/-! ## Persistence operations (`app/services/crud_analysis.py`) -/

/-- A row of the `analyses` table, restricted to the columns the embedded
code touches.  `results` is an uninterpreted blob (JSONB in the source). -/
structure AnalysisRow where
  status : String := "pending"
  error_message : Option String := none
  trust_score : Option ℚ := none
  results : Option String := none
  processing_time : Option ℤ := none
  content : Option PostInfo := none
deriving DecidableEq

/-- Body of `CRUDAnalysis.update_results` once the row is found: store the
results and *unconditionally* set `status = "completed"`; `content` is only
stored when truthy. -/
def update_results_row (row : AnalysisRow) (results : String) (trust_score : ℚ)
    (processing_time : ℤ) (content : Option PostInfo) : AnalysisRow :=
  { row with
    results := some results
    trust_score := some trust_score
    processing_time := some processing_time
    status := "completed"
    content := match content with | some c => some c | none => row.content }

/-- Embeds `CRUDAnalysis.update_results`: no-op returning `None` when the row is
absent. -/
def update_results (row : Option AnalysisRow) (results : String) (trust_score : ℚ)
    (processing_time : ℤ) (content : Option PostInfo) : Option AnalysisRow :=
  row.map (fun r => update_results_row r results trust_score processing_time content)

/-- Body of `CRUDAnalysis.update_status` once the row is found: set the
status unconditionally; the error message only when truthy. -/
def update_status_row (row : AnalysisRow) (status : String)
    (error_message : Option String) : AnalysisRow :=
  { row with
    status := status
    error_message := match error_message with
      | some e => some e
      | none => row.error_message }

/-- Embeds `CRUDAnalysis.update_status`. -/
def update_status (row : Option AnalysisRow) (status : String)
    (error_message : Option String) : Option AnalysisRow :=
  row.map (fun r => update_status_row r status error_message)

/-! ## Orchestrator (`app/tasks/analysis_tasks.py`, `process_instagram_post`)

The task is modelled as a function of an environment that fixes the
outcome of every environment interaction (database row lookup, Redis client,
Instagram authentication, scraping).  Its outcome records the final row
state, whether the parallel chord was launched, whether a
`TrustScoreResult` was computed inside this task, and every cache key the
task attempted to write. -/

/-- Embeds `instagram_service.get_post_info` return value: `None`, a falsy empty
dictionary, or a post-info dictionary. -/
inductive ExtractRet where
  | pyNone
  | emptyDict
  | info (p : PostInfo)

/-- Message of the `AttributeError` raised when the falsy check enters the
error branch with `post_info = None` and evaluates `post_info.get(...)`. -/
def attributeErrorMsg : String :=
  "AttributeError: NoneType object has no attribute get"

/-- Environment of one `process_instagram_post` run. -/
structure OrchEnv where
  row : Option AnalysisRow
  client : Option RedisOracle
  authenticated : Bool
  authOutcome : Except String Unit
  instagram_url : String
  post_id : String
  getPostInfoOutcome : Except String ExtractRet

/-- Return value of `process_instagram_post` (the dictionaries returned on
each path). -/
inductive OrchRet where
  | notFound
  | success (trust_score : ℚ) (grade : String) (cached : Bool)
  | processing
  | error (msg : String)
deriving DecidableEq

/-- Observable outcome of one `process_instagram_post` run. -/
structure OrchOutcome where
  row : Option AnalysisRow
  launchedParallel : Bool
  computedTrustScore : Bool
  cacheWriteKeys : List String
  ret : OrchRet

/-- The `except` path of the orchestrator: mark the row failed with the
raised message and return the error dictionary. -/
def orchFailOutcome (analysis : AnalysisRow) (e : String) : OrchOutcome :=
  { row := some { analysis with status := "failed", error_message := some e }
    launchedParallel := false
    computedTrustScore := false
    cacheWriteKeys := []
    ret := .error e }

/-- The tail of the happy path: store the extracted content on the row and
launch the parallel chord (trust scoring happens later, in the
continuation, never in this task). -/
def orchLaunchOutcome (analysis : AnalysisRow) (post_info : PostInfo)
    (writes : List String) : OrchOutcome :=
  { row := some { analysis with content := some post_info }
    launchedParallel := true
    computedTrustScore := false
    cacheWriteKeys := writes
    ret := .processing }

/-- Embeds `process_instagram_post`: cache gate, then sequential extraction
(gated by the raw-content cache), then chord launch; any raise inside the
`try` marks the job failed. -/
def process_instagram_post (env : OrchEnv) : OrchOutcome :=
  match env.row with
  | none =>
    { row := none, launchedParallel := false, computedTrustScore := false
      cacheWriteKeys := [], ret := .notFound }
  | some analysis0 =>
    let analysis := { analysis0 with status := "processing" }
    match get_cached_analysis env.client env.instagram_url with
    | some cached_result =>
      let updated := update_results_row analysis (cached_result.results.getD "")
        (cached_result.trust_score.getD 0) 1 none
      { row := some updated
        launchedParallel := false
        computedTrustScore := false
        cacheWriteKeys := []
        ret := .success (cached_result.trust_score.getD 0)
          (cached_result.grade.getD "N/A") true }
    | none =>
      match (if env.authenticated then Except.ok () else env.authOutcome) with
      | .error e => orchFailOutcome analysis e
      | .ok _ =>
        match get_cached_instagram_content env.client env.post_id with
        | some post_info => orchLaunchOutcome analysis post_info []
        | none =>
          match env.getPostInfoOutcome with
          | .error e => orchFailOutcome analysis e
          | .ok .pyNone => orchFailOutcome analysis attributeErrorMsg
          | .ok .emptyDict =>
            orchFailOutcome analysis "Failed to extract: Unknown error"
          | .ok (.info post_info) =>
            if post_info.error.isSome then
              orchFailOutcome analysis
                ("Failed to extract: " ++ post_info.error.getD "Unknown error")
            else
              orchLaunchOutcome analysis post_info
                [instagramContentKey env.post_id]

/-! ## Continuation (`app/tasks/analysis_tasks.py`, `complete_analysis`)

The chord callback.  Fact-checking and source evaluation are invoked
inside per-stage `try/except` blocks that turn a raise into a
`{"status": "failed", "error": ...}` StageResult.  Step 6 then calls

    calculate_trust_score(results=results, analysis_id=analysis_id,
                          post_info=post_info, generate_card=True)

while the imported function is declared as

    def calculate_trust_score(results: Dict, config: TrustScoreConfig = None)

We model Python keyword-argument binding: a call raises `TypeError` when a
keyword does not name a parameter. -/

/-- Python keyword binding: every keyword must name a parameter. -/
def pyCallBindsOk (params kwargs : List String) : Bool :=
  kwargs.all (fun k => params.contains k)

/-- Parameters of `calculate_trust_score` in
`app/services/trust_score_calculator.py`. -/
def calculate_trust_score_params : List String := ["results", "config"]

/-- Keywords passed at the Step-6 call site in `complete_analysis`. -/
def scoring_call_kwargs : List String :=
  ["results", "analysis_id", "post_info", "generate_card"]

/-- Whether the Step-6 scoring call raises `TypeError`. -/
def scoringCallRaisesTypeError : Bool :=
  ! pyCallBindsOk calculate_trust_score_params scoring_call_kwargs

/-- The `TypeError` message raised by the mismatched scoring call. -/
def typeErrorMsg : String :=
  "TypeError: calculate_trust_score() got an unexpected keyword argument"

/-- Environment of one `complete_analysis` run: the database row (as the
`except` handler would fetch it), the Redis client, and the outcomes of
the sequential analyzer invocations. -/
structure CallbackEnv where
  row : Option AnalysisRow
  client : Option RedisOracle
  factCheckOutcome : Except String FactCheckStage
  sourceEvalOutcome : Except String SourceCredStage
  claimVerifyOutcome : Except String Unit

/-- Return value of `complete_analysis`. -/
inductive CbRet where
  | success (trust_score : ℚ) (grade : String)
  | error (msg : String)
deriving DecidableEq

/-- Observable outcome of one `complete_analysis` run.  `resultsBundle` is
the scoring-relevant slice of the aggregated `results` dictionary built in
Step 5. -/
structure CallbackOutcome where
  row : Option AnalysisRow
  resultsBundle : AnalysisResults
  claimVerificationStatus : String
  computedTrustScore : Bool
  cacheWriteKeys : List String
  ret : CbRet

/-- Embeds `complete_analysis`: wrap the sequential stages, aggregate the bundle,
then Step 6 calls the trust score function.  Because the call site passes
keywords the function does not accept, the call raises `TypeError` and the
`except` handler marks the job failed; the `else` branch models how the
continuation would proceed had the call bound (score, persist as
completed, write the analysis cache key). -/
def complete_analysis (env : CallbackEnv) (ai_result : AIStage)
    (ocr_result : OCRStage) (deepfake_result : DeepfakeStage)
    (post_info : PostInfo) (instagram_url : String) : CallbackOutcome :=
  let fact_check_result : FactCheckStage :=
    match env.factCheckOutcome with
    | .ok f => f
    | .error e => { status := some "failed", error := some e }
  let source_eval_result : SourceCredStage :=
    match env.sourceEvalOutcome with
    | .ok s => s
    | .error e => { status := some "failed", error := some e }
  let claim_verification_status : String :=
    if fact_check_result.status = some "completed"
        ∧ (fact_check_result.claim_extraction.getD {}).has_claims then
      if fact_check_result.analyzed_claims ≠ [] then
        match env.claimVerifyOutcome with
        | .ok _ => "completed"
        | .error _ => "error"
      else "skipped"
    else "skipped"
  let results : AnalysisResults :=
    { ai_detection := some ai_result
      ocr := some ocr_result
      deepfake := some deepfake_result
      fact_check := some fact_check_result
      source_credibility := some source_eval_result }
  if scoringCallRaisesTypeError then
    { row := env.row.map (fun analysis =>
        { analysis with status := "failed", error_message := some typeErrorMsg })
      resultsBundle := results
      claimVerificationStatus := claim_verification_status
      computedTrustScore := false
      cacheWriteKeys := []
      ret := .error typeErrorMsg }
  else
    let score_result := calculate_trust_score DEFAULT_CONFIG results
    { row := env.row.map (fun analysis =>
        update_results_row analysis "results" score_result.final_score 0
          (some post_info))
      resultsBundle := results
      claimVerificationStatus := claim_verification_status
      computedTrustScore := true
      cacheWriteKeys := [analysisKey instagram_url]
      ret := .success score_result.final_score score_result.grade }

/-! ## Specification-side helpers and concrete instances

Definitions below do not embed source code; they are vocabulary for
stating the theorems (grade order, per-category counts) together with the
concrete inputs used by counterexamples and witnesses. -/

/-- The thirteen letter grades, best first, as produced by
`get_grade_from_score`. -/
def letterGrades : List String :=
  ["A+", "A", "A-", "B+", "B", "B-", "C+", "C", "C-", "D+", "D", "D-", "F"]

/-- Rank of a letter grade, `F` lowest, `A+` highest. -/
def gradeRank (g : String) : ℕ :=
  if g = "F" then 0
  else if g = "D-" then 1
  else if g = "D" then 2
  else if g = "D+" then 3
  else if g = "C-" then 4
  else if g = "C" then 5
  else if g = "C+" then 6
  else if g = "B-" then 7
  else if g = "B" then 8
  else if g = "B+" then 9
  else if g = "A-" then 10
  else if g = "A" then 11
  else if g = "A+" then 12
  else 0

/-- Number of adjustments carrying a given category. -/
def categoryCount (adjustments : List ScoreAdjustment) (c : String) : ℕ :=
  (adjustments.filter (fun adj => adj.category = c)).length

/-- The categories of the credibility-band adjustments. -/
def bandCategories : List String :=
  ["Low Credibility", "Questionable Credibility", "High Credibility"]

/-- Total red-flag penalty a completed fact-check contributes, per the
conditions of the source (substring test for the medical flag, membership for
the rest). -/
def flagPenaltyTotal (w : FactCheckWeights) (fact_flags : List String) : ℚ :=
  (if pyIn "MEDICAL_CLAIMS" (pyReprStrList fact_flags)
     then -w.medical_claims_penalty else 0)
  + (if fact_flags.contains "CONSPIRACY_LANGUAGE"
     then -w.conspiracy_language_penalty else 0)
  + (if fact_flags.contains "URGENT_LANGUAGE"
     then -w.urgent_language_penalty else 0)
  + (if fact_flags.contains "ABSOLUTIST_CLAIMS"
     then -w.absolutist_claims_penalty else 0)
  + (if fact_flags.contains "UNVERIFIED_SOURCES"
     then -w.unverified_sources_penalty else 0)
  + (if fact_flags.contains "EMOTIONAL_MANIPULATION"
     then -w.emotional_manipulation_penalty else 0)
  + (if fact_flags.contains "SENSATIONALISM"
     then -w.sensationalism_penalty else 0)

/-- Whether a `get_post_info` interaction counts as an extraction failure:
the call raised, returned `None`, returned a falsy empty dictionary, or
returned a dictionary carrying an `error` key. -/
def extractionFailed (o : Except String ExtractRet) : Prop :=
  (∃ e, o = .error e) ∨ o = .ok .pyNone ∨ o = .ok .emptyDict ∨
    (∃ p m, o = .ok (.info p) ∧ p.error = some m)

/-- A connected Redis client on which every lookup misses and every write
succeeds. -/
def missOracle : RedisOracle :=
  ⟨fun _ => .ok none, fun _ _ => .ok (), fun _ => .ok none, fun _ _ => .ok ()⟩

/-- A Redis client on which every operation raises. -/
def downOracle : RedisOracle :=
  ⟨fun _ => .error "connection refused", fun _ _ => .error "connection refused",
   fun _ => .error "connection refused", fun _ _ => .error "connection refused"⟩

/-- C1 counterexample input: an AI-detection hit at confidence `0.1667`,
giving the unclamped/unrounded score `100 - 0.1667 * 30 = 94.999`. -/
def c1Bundle : AnalysisResults :=
  { ai_detection := some
      { status := some "completed"
        overall := some { overall_ai_detected := true, confidence := some (1667/10000) } } }

/-- C2 failing input, job row: a job in `processing` when the continuation
runs. -/
def c2Row : AnalysisRow := { status := "processing" }

/-- C2 failing input: every interaction succeeds except source evaluation,
which raises. -/
def c2Env : CallbackEnv :=
  { row := some c2Row
    client := none
    factCheckOutcome := .ok { status := some "completed" }
    sourceEvalOutcome := .error "Source evaluation service crashed"
    claimVerifyOutcome := .ok () }

/-- C2 failing input: successful parallel stage results. -/
def c2AiResult : AIStage := { status := some "completed" }

/-- C2 failing input: successful OCR stage result. -/
def c2OcrResult : OCRStage := { status := some "completed" }

/-- C2 failing input: successful deepfake stage result. -/
def c2DeepfakeResult : DeepfakeStage := { status := some "completed" }

/-- C3 counterexample input: a job row already in the terminal `failed`
state. -/
def c3FailedRow : AnalysisRow :=
  { status := "failed", error_message := some "extraction timed out" }

/-- C7 counterexample input: a completed fact-check whose only flag merely
contains `MEDICAL_CLAIMS` as a substring. -/
def c7Stage : FactCheckStage :=
  { status := some "completed", flags := ["PSEUDOMEDICAL_CLAIMS"] }

/-- C8 witness input: an orchestrator environment whose scrape raises. -/
def c8Env : OrchEnv :=
  { row := some { status := "pending" }
    client := none
    authenticated := true
    authOutcome := .ok ()
    instagram_url := "https://www.instagram.com/p/ABC123/"
    post_id := "ABC123"
    getPostInfoOutcome := .error "Failed to fetch post page" }

/-! ## Theorems -/

theorem roundHalfEven_ge_floor (x : ℚ) : ⌊x⌋ ≤ roundHalfEven x := by
  unfold roundHalfEven
  split_ifs <;> omega

theorem roundHalfEven_le_floor_add_one (x : ℚ) : roundHalfEven x ≤ ⌊x⌋ + 1 := by
  unfold roundHalfEven
  split_ifs <;> omega

theorem roundHalfEven_nonneg (x : ℚ) (hx : 0 ≤ x) : 0 ≤ roundHalfEven x := by
  have h := roundHalfEven_ge_floor x
  have h2 : (0 : ℤ) ≤ ⌊x⌋ := Int.floor_nonneg.mpr hx
  omega

theorem roundHalfEven_le_of_le (x : ℚ) (n : ℤ) (hx : x ≤ (n : ℚ)) :
    roundHalfEven x ≤ n := by
  unfold roundHalfEven
  have hfl : (⌊x⌋ : ℚ) ≤ x := Int.floor_le x
  have hfln : ⌊x⌋ ≤ n := (Int.floor_mono hx).trans_eq (Int.floor_intCast n)
  split_ifs with h1 h2 h3
  · exact hfln
  · -- fractional part exceeds 1/2, so x exceeds ⌊x⌋ + 1/2
    have : (⌊x⌋ : ℚ) + 1/2 < x := by
      have := h2
      linarith
    have hlt : (⌊x⌋ : ℚ) < (n : ℚ) := by linarith
    have : ⌊x⌋ < n := by exact_mod_cast hlt
    omega
  · exact hfln
  · -- tie at exactly 1/2
    have heq : x = (⌊x⌋ : ℚ) + 1/2 := by linarith
    have hlt : (⌊x⌋ : ℚ) < (n : ℚ) := by
      have : (⌊x⌋ : ℚ) + 1/2 ≤ (n : ℚ) := by linarith
      linarith
    have : ⌊x⌋ < n := by exact_mod_cast hlt
    omega

theorem round2_nonneg (x : ℚ) (hx : 0 ≤ x) : 0 ≤ round2 x := by
  unfold round2
  have h : 0 ≤ roundHalfEven (100 * x) := roundHalfEven_nonneg _ (by linarith)
  positivity

theorem round2_le_hundred (x : ℚ) (hx : x ≤ 100) : round2 x ≤ 100 := by
  unfold round2
  have h : roundHalfEven (100 * x) ≤ (10000 : ℤ) := by
    apply roundHalfEven_le_of_le
    push_cast
    linarith
  have h2 : (roundHalfEven (100 * x) : ℚ) ≤ 10000 := by exact_mod_cast h
  linarith

/-- The grade chain at the default thresholds, with numeric literals. -/
theorem get_grade_default (s : ℚ) :
    get_grade_from_score s DEFAULT_CONFIG =
      (if (95 : ℚ) ≤ s then "A+"
       else if (90 : ℚ) ≤ s then "A"
       else if (85 : ℚ) ≤ s then "A-"
       else if (80 : ℚ) ≤ s then "B+"
       else if (75 : ℚ) ≤ s then "B"
       else if (70 : ℚ) ≤ s then "B-"
       else if (65 : ℚ) ≤ s then "C+"
       else if (60 : ℚ) ≤ s then "C"
       else if (55 : ℚ) ≤ s then "C-"
       else if (50 : ℚ) ≤ s then "D+"
       else if (45 : ℚ) ≤ s then "D"
       else if (40 : ℚ) ≤ s then "D-"
       else "F") := rfl

/-- Band dichotomy for the default thresholds: every score falls in
exactly one band, with the corresponding grade. -/
theorem grade_band (s : ℚ) :
    ((95 : ℚ) ≤ s ∧ get_grade_from_score s DEFAULT_CONFIG = "A+") ∨
    ((90 : ℚ) ≤ s ∧ s < 95 ∧ get_grade_from_score s DEFAULT_CONFIG = "A") ∨
    ((85 : ℚ) ≤ s ∧ s < 90 ∧ get_grade_from_score s DEFAULT_CONFIG = "A-") ∨
    ((80 : ℚ) ≤ s ∧ s < 85 ∧ get_grade_from_score s DEFAULT_CONFIG = "B+") ∨
    ((75 : ℚ) ≤ s ∧ s < 80 ∧ get_grade_from_score s DEFAULT_CONFIG = "B") ∨
    ((70 : ℚ) ≤ s ∧ s < 75 ∧ get_grade_from_score s DEFAULT_CONFIG = "B-") ∨
    ((65 : ℚ) ≤ s ∧ s < 70 ∧ get_grade_from_score s DEFAULT_CONFIG = "C+") ∨
    ((60 : ℚ) ≤ s ∧ s < 65 ∧ get_grade_from_score s DEFAULT_CONFIG = "C") ∨
    ((55 : ℚ) ≤ s ∧ s < 60 ∧ get_grade_from_score s DEFAULT_CONFIG = "C-") ∨
    ((50 : ℚ) ≤ s ∧ s < 55 ∧ get_grade_from_score s DEFAULT_CONFIG = "D+") ∨
    ((45 : ℚ) ≤ s ∧ s < 50 ∧ get_grade_from_score s DEFAULT_CONFIG = "D") ∨
    ((40 : ℚ) ≤ s ∧ s < 45 ∧ get_grade_from_score s DEFAULT_CONFIG = "D-") ∨
    (s < 40 ∧ get_grade_from_score s DEFAULT_CONFIG = "F") := by
  rcases le_or_lt 95 s with h1 | h1
  · exact Or.inl ⟨h1, by rw [get_grade_default, if_pos h1]⟩
  rcases le_or_lt 90 s with h2 | h2
  · exact Or.inr (Or.inl ⟨h2, h1, by rw [get_grade_default, if_neg (not_le.mpr h1), if_pos h2]⟩)
  rcases le_or_lt 85 s with h3 | h3
  · exact Or.inr (Or.inr (Or.inl ⟨h3, h2, by rw [get_grade_default, if_neg (not_le.mpr h1), if_neg (not_le.mpr h2), if_pos h3]⟩))
  rcases le_or_lt 80 s with h4 | h4
  · exact Or.inr (Or.inr (Or.inr (Or.inl ⟨h4, h3, by rw [get_grade_default, if_neg (not_le.mpr h1), if_neg (not_le.mpr h2), if_neg (not_le.mpr h3), if_pos h4]⟩)))
  rcases le_or_lt 75 s with h5 | h5
  · exact Or.inr (Or.inr (Or.inr (Or.inr (Or.inl ⟨h5, h4, by rw [get_grade_default, if_neg (not_le.mpr h1), if_neg (not_le.mpr h2), if_neg (not_le.mpr h3), if_neg (not_le.mpr h4), if_pos h5]⟩))))
  rcases le_or_lt 70 s with h6 | h6
  · exact Or.inr (Or.inr (Or.inr (Or.inr (Or.inr (Or.inl ⟨h6, h5, by rw [get_grade_default, if_neg (not_le.mpr h1), if_neg (not_le.mpr h2), if_neg (not_le.mpr h3), if_neg (not_le.mpr h4), if_neg (not_le.mpr h5), if_pos h6]⟩)))))
  rcases le_or_lt 65 s with h7 | h7
  · exact Or.inr (Or.inr (Or.inr (Or.inr (Or.inr (Or.inr (Or.inl ⟨h7, h6, by rw [get_grade_default, if_neg (not_le.mpr h1), if_neg (not_le.mpr h2), if_neg (not_le.mpr h3), if_neg (not_le.mpr h4), if_neg (not_le.mpr h5), if_neg (not_le.mpr h6), if_pos h7]⟩))))))
  rcases le_or_lt 60 s with h8 | h8
  · exact Or.inr (Or.inr (Or.inr (Or.inr (Or.inr (Or.inr (Or.inr (Or.inl ⟨h8, h7, by rw [get_grade_default, if_neg (not_le.mpr h1), if_neg (not_le.mpr h2), if_neg (not_le.mpr h3), if_neg (not_le.mpr h4), if_neg (not_le.mpr h5), if_neg (not_le.mpr h6), if_neg (not_le.mpr h7), if_pos h8]⟩)))))))
  rcases le_or_lt 55 s with h9 | h9
  · exact Or.inr (Or.inr (Or.inr (Or.inr (Or.inr (Or.inr (Or.inr (Or.inr (Or.inl ⟨h9, h8, by rw [get_grade_default, if_neg (not_le.mpr h1), if_neg (not_le.mpr h2), if_neg (not_le.mpr h3), if_neg (not_le.mpr h4), if_neg (not_le.mpr h5), if_neg (not_le.mpr h6), if_neg (not_le.mpr h7), if_neg (not_le.mpr h8), if_pos h9]⟩))))))))
  rcases le_or_lt 50 s with h10 | h10
  · exact Or.inr (Or.inr (Or.inr (Or.inr (Or.inr (Or.inr (Or.inr (Or.inr (Or.inr (Or.inl ⟨h10, h9, by rw [get_grade_default, if_neg (not_le.mpr h1), if_neg (not_le.mpr h2), if_neg (not_le.mpr h3), if_neg (not_le.mpr h4), if_neg (not_le.mpr h5), if_neg (not_le.mpr h6), if_neg (not_le.mpr h7), if_neg (not_le.mpr h8), if_neg (not_le.mpr h9), if_pos h10]⟩)))))))))
  rcases le_or_lt 45 s with h11 | h11
  · exact Or.inr (Or.inr (Or.inr (Or.inr (Or.inr (Or.inr (Or.inr (Or.inr (Or.inr (Or.inr (Or.inl ⟨h11, h10, by rw [get_grade_default, if_neg (not_le.mpr h1), if_neg (not_le.mpr h2), if_neg (not_le.mpr h3), if_neg (not_le.mpr h4), if_neg (not_le.mpr h5), if_neg (not_le.mpr h6), if_neg (not_le.mpr h7), if_neg (not_le.mpr h8), if_neg (not_le.mpr h9), if_neg (not_le.mpr h10), if_pos h11]⟩))))))))))
  rcases le_or_lt 40 s with h12 | h12
  · exact Or.inr (Or.inr (Or.inr (Or.inr (Or.inr (Or.inr (Or.inr (Or.inr (Or.inr (Or.inr (Or.inr (Or.inl ⟨h12, h11, by rw [get_grade_default, if_neg (not_le.mpr h1), if_neg (not_le.mpr h2), if_neg (not_le.mpr h3), if_neg (not_le.mpr h4), if_neg (not_le.mpr h5), if_neg (not_le.mpr h6), if_neg (not_le.mpr h7), if_neg (not_le.mpr h8), if_neg (not_le.mpr h9), if_neg (not_le.mpr h10), if_neg (not_le.mpr h11), if_pos h12]⟩)))))))))))
  exact Or.inr (Or.inr (Or.inr (Or.inr (Or.inr (Or.inr (Or.inr (Or.inr (Or.inr (Or.inr (Or.inr (Or.inr (⟨h12, by rw [get_grade_default, if_neg (not_le.mpr h1), if_neg (not_le.mpr h2), if_neg (not_le.mpr h3), if_neg (not_le.mpr h4), if_neg (not_le.mpr h5), if_neg (not_le.mpr h6), if_neg (not_le.mpr h7), if_neg (not_le.mpr h8), if_neg (not_le.mpr h9), if_neg (not_le.mpr h10), if_neg (not_le.mpr h11), if_neg (not_le.mpr h12)]⟩))))))))))))

/-- Claim C5: under the default thresholds the grade mapping is total —
every score (in particular every score in `[0,100]`) maps to one of the
thirteen distinct letter grades — and monotone: `s1 < s2` implies the
grade of `s1` ranks no higher than the grade of `s2`. -/
theorem grade_mapping_total_and_monotone :
    (∀ s : ℚ, 0 ≤ s → s ≤ 100 →
      get_grade_from_score s DEFAULT_CONFIG ∈ letterGrades) ∧
    letterGrades.length = 13 ∧ letterGrades.Nodup ∧
    (∀ s1 s2 : ℚ, s1 < s2 →
      gradeRank (get_grade_from_score s1 DEFAULT_CONFIG) ≤
        gradeRank (get_grade_from_score s2 DEFAULT_CONFIG)) := by
  refine ⟨?_, by decide, by decide, ?_⟩
  · intro s _ _
    rcases grade_band s with ⟨ha, hg1⟩ | ⟨ha, hb, hg1⟩ | ⟨ha, hb, hg1⟩ | ⟨ha, hb, hg1⟩ | ⟨ha, hb, hg1⟩ | ⟨ha, hb, hg1⟩ | ⟨ha, hb, hg1⟩ | ⟨ha, hb, hg1⟩ | ⟨ha, hb, hg1⟩ | ⟨ha, hb, hg1⟩ | ⟨ha, hb, hg1⟩ | ⟨ha, hb, hg1⟩ | ⟨ha, hg1⟩ <;> rw [hg1] <;> decide
  · intro s1 s2 h
    rcases grade_band s1 with ⟨ha, hg1⟩ | ⟨ha, hb, hg1⟩ | ⟨ha, hb, hg1⟩ | ⟨ha, hb, hg1⟩ | ⟨ha, hb, hg1⟩ | ⟨ha, hb, hg1⟩ | ⟨ha, hb, hg1⟩ | ⟨ha, hb, hg1⟩ | ⟨ha, hb, hg1⟩ | ⟨ha, hb, hg1⟩ | ⟨ha, hb, hg1⟩ | ⟨ha, hb, hg1⟩ | ⟨ha, hg1⟩ <;>
      rcases grade_band s2 with ⟨hc, hg2⟩ | ⟨hc, hd, hg2⟩ | ⟨hc, hd, hg2⟩ | ⟨hc, hd, hg2⟩ | ⟨hc, hd, hg2⟩ | ⟨hc, hd, hg2⟩ | ⟨hc, hd, hg2⟩ | ⟨hc, hd, hg2⟩ | ⟨hc, hd, hg2⟩ | ⟨hc, hd, hg2⟩ | ⟨hc, hd, hg2⟩ | ⟨hc, hd, hg2⟩ | ⟨hc, hg2⟩ <;>
      rw [hg1, hg2] <;>
      first | decide | linarith

/-- Witness for C5 at concrete scores `76 ≤ 100` and `50 < 80`. -/
theorem grade_mapping_total_and_monotone_witness :
    get_grade_from_score 76 DEFAULT_CONFIG ∈ letterGrades ∧
    gradeRank (get_grade_from_score 50 DEFAULT_CONFIG) ≤
      gradeRank (get_grade_from_score 80 DEFAULT_CONFIG) :=
  ⟨grade_mapping_total_and_monotone.1 76 (by norm_num) (by norm_num),
   grade_mapping_total_and_monotone.2.2.2 50 80 (by norm_num)⟩

/-- Claim C9: cache faults never fail a job.  Reads return `none` (a miss)
and writes return `false` whenever the client is absent or the underlying
operation raises — the embedded functions are total, so no exception
reaches the caller — and the orchestrator behaves identically under a
dead client, an absent client, and a connected client that always misses. -/
theorem cache_faults_never_fail_job :
    (∀ url, get_cached_analysis none url = none) ∧
    (∀ url data, cache_analysis_result none url data = false) ∧
    (∀ pid, get_cached_instagram_content none pid = none) ∧
    (∀ pid c, cache_instagram_content none pid c = false) ∧
    (∀ (r : RedisOracle) url e, r.getAnalysisOp (analysisKey url) = .error e →
      get_cached_analysis (some r) url = none) ∧
    (∀ (r : RedisOracle) url data e,
      r.setAnalysisOp (analysisKey url) data = .error e →
      cache_analysis_result (some r) url data = false) ∧
    (∀ (r : RedisOracle) pid e, r.getContentOp (instagramContentKey pid) = .error e →
      get_cached_instagram_content (some r) pid = none) ∧
    (∀ (r : RedisOracle) pid c e,
      r.setContentOp (instagramContentKey pid) c = .error e →
      cache_instagram_content (some r) pid c = false) ∧
    (∀ env : OrchEnv, process_instagram_post { env with client := some downOracle } =
      process_instagram_post { env with client := none }) ∧
    (∀ env : OrchEnv, process_instagram_post { env with client := none } =
      process_instagram_post { env with client := some missOracle }) := by
  refine ⟨fun _ => rfl, fun _ _ => rfl, fun _ => rfl, fun _ _ => rfl,
    ?_, ?_, ?_, ?_, fun env => rfl, fun env => rfl⟩
  · intro r url e h; simp [get_cached_analysis, h]
  · intro r url data e h; simp [cache_analysis_result, h]
  · intro r pid e h; simp [get_cached_instagram_content, h]
  · intro r pid c e h; simp [cache_instagram_content, h]

/-- Witness for C9: a client whose every operation raises behaves as a
miss on a concrete URL. -/
theorem cache_faults_never_fail_job_witness :
    get_cached_analysis (some downOracle) "https://www.instagram.com/p/X/" = none ∧
    cache_analysis_result (some downOracle) "https://www.instagram.com/p/X/" {} = false :=
  ⟨cache_faults_never_fail_job.2.2.2.2.1 downOracle "https://www.instagram.com/p/X/"
      "connection refused" rfl,
   cache_faults_never_fail_job.2.2.2.2.2.1 downOracle "https://www.instagram.com/p/X/"
      {} "connection refused" rfl⟩

/-- Counterexample to claim C3: `update_results` on a job already in the
terminal `failed` state overwrites the status to `completed`; terminal
states are not final under the persistence operations. -/
theorem terminal_states_counterexample :
    c3FailedRow.status = "failed" ∧
    (update_results (some c3FailedRow) "cached results" 50 3 none).map
      (fun r => r.status) = some "completed" ∧
    (update_results (some c3FailedRow) "cached results" 50 3 none).map
      (fun r => r.status) ≠ some "failed" := by
  refine ⟨rfl, rfl, ?_⟩
  intro h
  simp [update_results, update_results_row, c3FailedRow] at h

/-- Claim C3 (amended): the persistence layer does not guard terminal
states.  `update_results` sets the status of every existing row to `completed`
regardless of its current status (in particular a row already `failed` is
overwritten), `update_status` overwrites the status unconditionally, and
only a missing row is left untouched. -/
theorem crud_status_overwrites_unconditionally (row : AnalysisRow) :
    (∀ results trust_score processing_time content,
      (update_results_row row results trust_score processing_time content).status =
        "completed") ∧
    (∀ status error_message,
      (update_status_row row status error_message).status = status) ∧
    (∀ results trust_score processing_time content,
      update_results none results trust_score processing_time content = none) ∧
    (∀ status error_message, update_status none status error_message = none) :=
  ⟨fun _ _ _ _ => rfl, fun _ _ => rfl, fun _ _ _ _ => rfl, fun _ _ => rfl⟩

/-- Claim C8: when the job is found, the whole-pipeline cache misses,
authentication succeeds, the raw-content cache misses, and extraction
fails (a raise, a falsy return, or an error-carrying return), the job ends
`failed` with the extraction error recorded, the parallel group is never
launched (hence the continuation that computes the TrustScoreResult never
runs), no TrustScoreResult is computed in the task, and no cache key is
written. -/
theorem extraction_failure_is_fatal (env : OrchEnv) (row : AnalysisRow)
    (hrow : env.row = some row)
    (hmiss : get_cached_analysis env.client env.instagram_url = none)
    (hauth : env.authenticated = true ∨ env.authOutcome = .ok ())
    (hcontent : get_cached_instagram_content env.client env.post_id = none)
    (hfail : extractionFailed env.getPostInfoOutcome) :
    ∃ e : String,
      (process_instagram_post env).row =
        some { row with status := "failed", error_message := some e } ∧
      (process_instagram_post env).launchedParallel = false ∧
      (process_instagram_post env).computedTrustScore = false ∧
      (process_instagram_post env).cacheWriteKeys = [] ∧
      (process_instagram_post env).ret = .error e := by
  have hauth2 : (if env.authenticated then Except.ok () else env.authOutcome) =
      Except.ok () := by
    rcases hauth with ha | ha
    · rw [ha]; rfl
    · cases henv : env.authenticated
      · simpa [henv] using ha
      · rfl
  rcases hfail with ⟨e, he⟩ | he | he | ⟨p, m, he, hm⟩
  · exact ⟨e, by simp [process_instagram_post, hrow, hmiss, hauth2, hcontent, he,
      orchFailOutcome]⟩
  · exact ⟨attributeErrorMsg, by simp [process_instagram_post, hrow, hmiss, hauth2,
      hcontent, he, orchFailOutcome]⟩
  · exact ⟨"Failed to extract: Unknown error", by simp [process_instagram_post, hrow,
      hmiss, hauth2, hcontent, he, orchFailOutcome]⟩
  · exact ⟨"Failed to extract: " ++ m, by simp [process_instagram_post, hrow, hmiss,
      hauth2, hcontent, he, hm, orchFailOutcome]⟩

/-- Witness for C8 on the concrete environment `c8Env`, whose scrape
raises. -/
theorem extraction_failure_is_fatal_witness :
    ∃ e : String,
      (process_instagram_post c8Env).row =
        some { ({ status := "pending" } : AnalysisRow) with
          status := "failed", error_message := some e } ∧
      (process_instagram_post c8Env).launchedParallel = false ∧
      (process_instagram_post c8Env).computedTrustScore = false ∧
      (process_instagram_post c8Env).cacheWriteKeys = [] ∧
      (process_instagram_post c8Env).ret = .error e :=
  extraction_failure_is_fatal c8Env { status := "pending" } rfl rfl (Or.inl rfl) rfl
    (Or.inl ⟨"Failed to fetch post page", rfl⟩)

/-- Claim C2 evaluated at its failing input (code bug): with every step
succeeding except source evaluation — which raises and is correctly
wrapped into a `failed` StageResult with its reason — the continuation
still marks the job `failed`, because the Step-6 call passes the keywords
`analysis_id`, `post_info` and `generate_card` to
`calculate_trust_score(results, config=None)`, raising `TypeError` before
any scoring happens.  The job therefore never reaches `Completed`. -/
theorem one_analyzer_failure_still_fails_job :
    scoringCallRaisesTypeError = true ∧
    (complete_analysis c2Env c2AiResult c2OcrResult c2DeepfakeResult {}
        "https://www.instagram.com/p/ABC123/").resultsBundle.source_credibility =
      some { status := some "failed",
             error := some "Source evaluation service crashed" } ∧
    (complete_analysis c2Env c2AiResult c2OcrResult c2DeepfakeResult {}
        "https://www.instagram.com/p/ABC123/").row =
      some { c2Row with status := "failed", error_message := some typeErrorMsg } ∧
    (complete_analysis c2Env c2AiResult c2OcrResult c2DeepfakeResult {}
        "https://www.instagram.com/p/ABC123/").computedTrustScore = false ∧
    (complete_analysis c2Env c2AiResult c2OcrResult c2DeepfakeResult {}
        "https://www.instagram.com/p/ABC123/").cacheWriteKeys = [] ∧
    (complete_analysis c2Env c2AiResult c2OcrResult c2DeepfakeResult {}
        "https://www.instagram.com/p/ABC123/").ret = .error typeErrorMsg :=
  ⟨rfl, rfl, rfl, rfl, rfl, rfl⟩

/-- Claim C6: a completed source-credibility result emits at most one
adjustment, chosen by strict priority — conspiracy, else unreliable, else
satire, else the continuous reliability adjustment, and none at all when
the average reliability lies between the two thresholds. -/
theorem source_credibility_exclusive_priority (config : TrustScoreConfig)
    (s : SourceCredStage) (hs : s.status = some "completed") :
    (processSourceCredibility config (some s)).1.length ≤ 1 ∧
    ((s.assessment.getD {}).has_conspiracy = true →
      (processSourceCredibility config (some s)).1.map
          (fun adj => (adj.category, adj.impact)) =
        [("Conspiracy Sources", -config.source_credibility.conspiracy_sources_penalty)]) ∧
    ((s.assessment.getD {}).has_conspiracy = false →
     (s.assessment.getD {}).has_unreliable_sources = true →
      (processSourceCredibility config (some s)).1.map
          (fun adj => (adj.category, adj.impact)) =
        [("Unreliable Sources", -config.source_credibility.unreliable_sources_penalty)]) ∧
    ((s.assessment.getD {}).has_conspiracy = false →
     (s.assessment.getD {}).has_unreliable_sources = false →
     (s.assessment.getD {}).has_satire = true →
      (processSourceCredibility config (some s)).1.map
          (fun adj => (adj.category, adj.impact)) =
        [("Satire Content", -config.source_credibility.satire_penalty)]) ∧
    ((s.assessment.getD {}).has_conspiracy = false →
     (s.assessment.getD {}).has_unreliable_sources = false →
     (s.assessment.getD {}).has_satire = false →
     (s.assessment.getD {}).avg_reliability_score.getD (1/2 : ℚ) <
        config.source_credibility.low_reliability_threshold →
      (processSourceCredibility config (some s)).1.map
          (fun adj => (adj.category, adj.impact)) =
        [("Low Source Reliability",
          (-((1/2 : ℚ) - (s.assessment.getD {}).avg_reliability_score.getD (1/2 : ℚ))) *
            config.source_credibility.low_reliability_multiplier)]) ∧
    ((s.assessment.getD {}).has_conspiracy = false →
     (s.assessment.getD {}).has_unreliable_sources = false →
     (s.assessment.getD {}).has_satire = false →
     ¬ (s.assessment.getD {}).avg_reliability_score.getD (1/2 : ℚ) <
        config.source_credibility.low_reliability_threshold →
     config.source_credibility.high_reliability_threshold <
        (s.assessment.getD {}).avg_reliability_score.getD (1/2 : ℚ) →
      (processSourceCredibility config (some s)).1.map
          (fun adj => (adj.category, adj.impact)) =
        [("High Source Reliability",
          ((s.assessment.getD {}).avg_reliability_score.getD (1/2 : ℚ) - (7/10 : ℚ)) *
            config.source_credibility.high_reliability_multiplier)]) ∧
    ((s.assessment.getD {}).has_conspiracy = false →
     (s.assessment.getD {}).has_unreliable_sources = false →
     (s.assessment.getD {}).has_satire = false →
     ¬ (s.assessment.getD {}).avg_reliability_score.getD (1/2 : ℚ) <
        config.source_credibility.low_reliability_threshold →
     ¬ config.source_credibility.high_reliability_threshold <
        (s.assessment.getD {}).avg_reliability_score.getD (1/2 : ℚ) →
      (processSourceCredibility config (some s)).1 = []) := by
  refine ⟨?_, ?_, ?_, ?_, ?_, ?_, ?_⟩
  · cases hc : (s.assessment.getD {}).has_conspiracy <;>
      cases hu : (s.assessment.getD {}).has_unreliable_sources <;>
      cases hst : (s.assessment.getD {}).has_satire <;>
      simp [processSourceCredibility, hs, hc, hu, hst] <;>
      split_ifs <;> simp
  · intro hc
    simp [processSourceCredibility, hs, hc]
  · intro hc hu
    simp [processSourceCredibility, hs, hc, hu]
  · intro hc hu hst
    simp [processSourceCredibility, hs, hc, hu, hst]
  · intro hc hu hst hl
    simp only [one_div] at hl
    simp [processSourceCredibility, hs, hc, hu, hst, hl]
  · intro hc hu hst hl hh
    simp only [one_div] at hl hh
    simp [processSourceCredibility, hs, hc, hu, hst, hl, hh]
  · intro hc hu hst hl hh
    simp only [one_div] at hl hh
    simp [processSourceCredibility, hs, hc, hu, hst, hl, hh]

/-- Witness for C6: a completed result flagged as linking conspiracy
sources yields exactly the conspiracy penalty. -/
theorem source_credibility_exclusive_priority_witness :
    (processSourceCredibility DEFAULT_CONFIG
        (some { status := some "completed",
                assessment := some { has_conspiracy := true } })).1.map
        (fun adj => (adj.category, adj.impact)) =
      [("Conspiracy Sources",
        -DEFAULT_CONFIG.source_credibility.conspiracy_sources_penalty)] :=
  (source_credibility_exclusive_priority DEFAULT_CONFIG
      { status := some "completed", assessment := some { has_conspiracy := true } }
      rfl).2.1 rfl

theorem fcBand_at_seventy : fcBand DEFAULT_CONFIG.fact_check 70 = [] := by
  norm_num [fcBand, DEFAULT_CONFIG]

theorem filter_cond_singleton {α : Type} (p : α → Bool) (c : Prop) [Decidable c]
    (a : α) (h : p a = false) : List.filter p (if c then [a] else []) = [] := by
  split_ifs <;> simp [h]

/-- Claim C10: a completed fact-check whose `credibility_analysis` lacks a
`score` key defaults to credibility 70, which under the default thresholds
(questionable = 70, high = 80) is in the neutral band: no credibility-band
adjustment is emitted, and the whole output equals that of the same stage
scoring exactly 70. -/
theorem factcheck_missing_score_neutral (s : FactCheckStage)
    (hs : s.status = some "completed")
    (hscore : (s.credibility_analysis.getD {}).score = none) :
    ((processFactChecking DEFAULT_CONFIG (some s)).1.filter
        (fun adj => bandCategories.contains adj.category)) = [] ∧
    processFactChecking DEFAULT_CONFIG (some s) =
      processFactChecking DEFAULT_CONFIG
        (some { s with credibility_analysis := some { score := some 70 } }) := by
  have hcs : (s.credibility_analysis.getD {}).score.getD 70 = (70 : ℚ) := by
    rw [hscore]; rfl
  constructor
  · simp [processFactChecking, hs, hcs, fcBand_at_seventy, List.filter_append,
      filter_cond_singleton, bandCategories]
  · simp [processFactChecking, hs, hcs]

/-- Witness for C10: a concrete completed fact-check with a red flag but no
credibility score. -/
theorem factcheck_missing_score_neutral_witness :
    ((processFactChecking DEFAULT_CONFIG
        (some { status := some "completed", flags := ["SENSATIONALISM"] })).1.filter
        (fun adj => bandCategories.contains adj.category)) = [] ∧
    processFactChecking DEFAULT_CONFIG
        (some { status := some "completed", flags := ["SENSATIONALISM"] }) =
      processFactChecking DEFAULT_CONFIG
        (some { ({ status := some "completed",
                   flags := ["SENSATIONALISM"] } : FactCheckStage) with
          credibility_analysis := some { score := some 70 } }) :=
  factcheck_missing_score_neutral
    { status := some "completed", flags := ["SENSATIONALISM"] } rfl rfl

theorem processAi_not_completed (config : TrustScoreConfig) (s : AIStage)
    (h : s.status ≠ some "completed") :
    processAiDetection config (some s) = [] := by
  simp [processAiDetection, h]

theorem processAi_none (config : TrustScoreConfig) :
    processAiDetection config none = [] := rfl

theorem processDeepfake_not_completed (config : TrustScoreConfig) (s : DeepfakeStage)
    (h : s.status ≠ some "completed") :
    processDeepfake config (some s) = [] := by
  simp [processDeepfake, h]

theorem processDeepfake_none (config : TrustScoreConfig) :
    processDeepfake config none = [] := rfl

theorem processFactChecking_not_completed (config : TrustScoreConfig)
    (s : FactCheckStage) (h : s.status ≠ some "completed") :
    processFactChecking config (some s) = ([], [], false) := by
  simp [processFactChecking, h]

theorem processFactChecking_none (config : TrustScoreConfig) :
    processFactChecking config none = ([], [], false) := rfl

theorem processSourceCredibility_not_completed (config : TrustScoreConfig)
    (s : SourceCredStage) (h : s.status ≠ some "completed") :
    processSourceCredibility config (some s) = ([], []) := by
  simp [processSourceCredibility, h]

theorem processSourceCredibility_none (config : TrustScoreConfig) :
    processSourceCredibility config none = ([], []) := rfl

/-- Claim C4: degraded-signal neutrality.  Replacing any stage whose
status is `skipped` or `failed` by an entirely absent stage leaves the
whole `TrustScoreResult` — in particular its adjustments, flags and
`requires_review` — unchanged, all other stages held fixed; and every
stage whose status is not `completed` emits zero adjustments. -/
theorem degraded_signal_neutrality (config : TrustScoreConfig) (b : AnalysisResults) :
    (∀ s : AIStage, s.status = some "skipped" ∨ s.status = some "failed" →
      calculate_trust_score config { b with ai_detection := some s } =
        calculate_trust_score config { b with ai_detection := none }) ∧
    (∀ s : OCRStage, s.status = some "skipped" ∨ s.status = some "failed" →
      calculate_trust_score config { b with ocr := some s } =
        calculate_trust_score config { b with ocr := none }) ∧
    (∀ s : DeepfakeStage, s.status = some "skipped" ∨ s.status = some "failed" →
      calculate_trust_score config { b with deepfake := some s } =
        calculate_trust_score config { b with deepfake := none }) ∧
    (∀ s : FactCheckStage, s.status = some "skipped" ∨ s.status = some "failed" →
      calculate_trust_score config { b with fact_check := some s } =
        calculate_trust_score config { b with fact_check := none }) ∧
    (∀ s : SourceCredStage, s.status = some "skipped" ∨ s.status = some "failed" →
      calculate_trust_score config { b with source_credibility := some s } =
        calculate_trust_score config { b with source_credibility := none }) ∧
    (∀ s : AIStage, s.status ≠ some "completed" →
      processAiDetection config (some s) = []) ∧
    (∀ o : Option OCRStage, processOcr o = []) ∧
    (∀ s : DeepfakeStage, s.status ≠ some "completed" →
      processDeepfake config (some s) = []) ∧
    (∀ s : FactCheckStage, s.status ≠ some "completed" →
      (processFactChecking config (some s)).1 = []) ∧
    (∀ s : SourceCredStage, s.status ≠ some "completed" →
      (processSourceCredibility config (some s)).1 = []) := by
  refine ⟨?_, fun s _ => rfl, ?_, ?_, ?_,
    fun s h => processAi_not_completed config s h,
    fun o => rfl,
    fun s h => processDeepfake_not_completed config s h,
    fun s h => by rw [processFactChecking_not_completed config s h],
    fun s h => by rw [processSourceCredibility_not_completed config s h]⟩
  · intro s hsk
    have h : s.status ≠ some "completed" := by
      rcases hsk with h | h <;> rw [h] <;> simp
    simp [calculate_trust_score, processAi_not_completed config s h, processAi_none]
  · intro s hsk
    have h : s.status ≠ some "completed" := by
      rcases hsk with h | h <;> rw [h] <;> simp
    simp [calculate_trust_score, processDeepfake_not_completed config s h,
      processDeepfake_none]
  · intro s hsk
    have h : s.status ≠ some "completed" := by
      rcases hsk with h | h <;> rw [h] <;> simp
    simp [calculate_trust_score, processFactChecking_not_completed config s h,
      processFactChecking_none]
  · intro s hsk
    have h : s.status ≠ some "completed" := by
      rcases hsk with h | h <;> rw [h] <;> simp
    simp [calculate_trust_score, processSourceCredibility_not_completed config s h,
      processSourceCredibility_none]

/-- Witness for C4: a skipped AI-detection stage on the empty bundle
scores identically to an absent one, and a skipped fact-check emits no
adjustments. -/
theorem degraded_signal_neutrality_witness :
    calculate_trust_score DEFAULT_CONFIG
        { ({} : AnalysisResults) with
          ai_detection := some { status := some "skipped" } } =
      calculate_trust_score DEFAULT_CONFIG
        { ({} : AnalysisResults) with ai_detection := none } ∧
    (processFactChecking DEFAULT_CONFIG
        (some ({ status := some "failed" } : FactCheckStage))).1 = [] :=
  ⟨(degraded_signal_neutrality DEFAULT_CONFIG {}).1 { status := some "skipped" }
      (Or.inl rfl),
   (degraded_signal_neutrality DEFAULT_CONFIG {}).2.2.2.2.2.2.2.2.1
      { status := some "failed" } (by simp)⟩

theorem filter_cond_singleton_pos {α : Type} (p : α → Bool) (c : Prop) [Decidable c]
    (a : α) (h : p a = true) :
    List.filter p (if c then [a] else []) = if c then [a] else [] := by
  split_ifs <;> simp [h]

theorem sumImpacts_append (xs ys : List ScoreAdjustment) :
    sumImpacts (xs ++ ys) = sumImpacts xs + sumImpacts ys := by
  simp [sumImpacts]

theorem sumImpacts_cond_singleton (c : Prop) [Decidable c] (a : ScoreAdjustment) :
    sumImpacts (if c then [a] else []) = if c then a.impact else 0 := by
  split_ifs <;> simp [sumImpacts]

theorem fcBand_filter_nonband (w : FactCheckWeights) (q : ℚ) :
    (fcBand w q).filter (fun adj => !(bandCategories.contains adj.category)) = [] := by
  unfold fcBand
  split_ifs <;> simp [bandCategories]

/-- Counterexample to claim C7: the medical-claims penalty is emitted for
a completed fact-check whose only flag is `PSEUDOMEDICAL_CLAIMS`, even
though `MEDICAL_CLAIMS` is not present in the flags — because the source
tests `"MEDICAL_CLAIMS" in str(fact_flags)`, a substring check on the
string rendering of the list, unlike the membership checks used for every
other red flag. -/
theorem medical_flag_substring_counterexample :
    "MEDICAL_CLAIMS" ∉ c7Stage.flags ∧
    categoryCount (processFactChecking DEFAULT_CONFIG (some c7Stage)).1
      "Medical Claims" = 1 := by
  have hmed :
      pyIn "MEDICAL_CLAIMS" (pyReprStrList ["PSEUDOMEDICAL_CLAIMS"]) = true := by
    decide
  refine ⟨by decide, ?_⟩
  simp [processFactChecking, c7Stage, hmed, fcBand_at_seventy, categoryCount]

/-- Claim C7 (amended): for a completed fact-check, the non-band
adjustments are exactly the red-flag penalties, in source order, each with
its fixed configured penalty; six of the seven are emitted iff the flag is
a member of `flags`, while the medical-claims penalty is emitted iff
`MEDICAL_CLAIMS` occurs as a substring of the Python string rendering of
the flags list (membership is sufficient but not necessary).  All
applicable penalties stack additively with each other and with the
credibility-band adjustment. -/
theorem factcheck_red_flags_stack (config : TrustScoreConfig) (s : FactCheckStage)
    (hs : s.status = some "completed") :
    ((processFactChecking config (some s)).1.filter
        (fun adj => !(bandCategories.contains adj.category))).map
        (fun adj => (adj.category, adj.impact)) =
      (if pyIn "MEDICAL_CLAIMS" (pyReprStrList s.flags) then
          [("Medical Claims", -config.fact_check.medical_claims_penalty)] else [])
      ++ (if s.flags.contains "CONSPIRACY_LANGUAGE" then
          [("Conspiracy Language", -config.fact_check.conspiracy_language_penalty)]
        else [])
      ++ (if s.flags.contains "URGENT_LANGUAGE" then
          [("Urgent Language", -config.fact_check.urgent_language_penalty)] else [])
      ++ (if s.flags.contains "ABSOLUTIST_CLAIMS" then
          [("Absolutist Claims", -config.fact_check.absolutist_claims_penalty)] else [])
      ++ (if s.flags.contains "UNVERIFIED_SOURCES" then
          [("Unverified Sources", -config.fact_check.unverified_sources_penalty)]
        else [])
      ++ (if s.flags.contains "EMOTIONAL_MANIPULATION" then
          [("Emotional Manipulation",
            -config.fact_check.emotional_manipulation_penalty)] else [])
      ++ (if s.flags.contains "SENSATIONALISM" then
          [("Sensationalism", -config.fact_check.sensationalism_penalty)] else []) ∧
    sumImpacts (processFactChecking config (some s)).1 =
      sumImpacts (fcBand config.fact_check
        ((s.credibility_analysis.getD {}).score.getD 70)) +
      flagPenaltyTotal config.fact_check s.flags := by
  constructor
  · have hband := fcBand_filter_nonband config.fact_check
      ((s.credibility_analysis.getD {}).score.getD 70)
    simp only [processFactChecking, hs, ne_eq, reduceCtorEq, not_false_eq_true,
      not_true, Option.getD_some, if_false, List.filter_append, hband,
      List.nil_append, List.map_append]
    split_ifs <;> rfl
  · simp only [processFactChecking, hs, ne_eq, reduceCtorEq, not_false_eq_true,
      not_true, Option.getD_some, if_false, sumImpacts_append,
      sumImpacts_cond_singleton, flagPenaltyTotal]
    ring

/-- Witness for C7 (amended): a completed fact-check carrying the medical
and sensationalism flags stacks both penalties on top of the band term. -/
theorem factcheck_red_flags_stack_witness :
    ((processFactChecking DEFAULT_CONFIG
        (some { status := some "completed",
                flags := ["MEDICAL_CLAIMS", "SENSATIONALISM"] })).1.filter
        (fun adj => !(bandCategories.contains adj.category))).map
        (fun adj => (adj.category, adj.impact)) =
      (if pyIn "MEDICAL_CLAIMS"
          (pyReprStrList (["MEDICAL_CLAIMS", "SENSATIONALISM"] : List String)) then
          [("Medical Claims", -DEFAULT_CONFIG.fact_check.medical_claims_penalty)]
        else [])
      ++ (if (["MEDICAL_CLAIMS", "SENSATIONALISM"] : List String).contains
            "CONSPIRACY_LANGUAGE" then
          [("Conspiracy Language",
            -DEFAULT_CONFIG.fact_check.conspiracy_language_penalty)] else [])
      ++ (if (["MEDICAL_CLAIMS", "SENSATIONALISM"] : List String).contains
            "URGENT_LANGUAGE" then
          [("Urgent Language", -DEFAULT_CONFIG.fact_check.urgent_language_penalty)]
        else [])
      ++ (if (["MEDICAL_CLAIMS", "SENSATIONALISM"] : List String).contains
            "ABSOLUTIST_CLAIMS" then
          [("Absolutist Claims",
            -DEFAULT_CONFIG.fact_check.absolutist_claims_penalty)] else [])
      ++ (if (["MEDICAL_CLAIMS", "SENSATIONALISM"] : List String).contains
            "UNVERIFIED_SOURCES" then
          [("Unverified Sources",
            -DEFAULT_CONFIG.fact_check.unverified_sources_penalty)] else [])
      ++ (if (["MEDICAL_CLAIMS", "SENSATIONALISM"] : List String).contains
            "EMOTIONAL_MANIPULATION" then
          [("Emotional Manipulation",
            -DEFAULT_CONFIG.fact_check.emotional_manipulation_penalty)] else [])
      ++ (if (["MEDICAL_CLAIMS", "SENSATIONALISM"] : List String).contains
            "SENSATIONALISM" then
          [("Sensationalism", -DEFAULT_CONFIG.fact_check.sensationalism_penalty)]
        else []) ∧
    sumImpacts (processFactChecking DEFAULT_CONFIG
        (some { status := some "completed",
                flags := ["MEDICAL_CLAIMS", "SENSATIONALISM"] })).1 =
      sumImpacts (fcBand DEFAULT_CONFIG.fact_check 70) +
      flagPenaltyTotal DEFAULT_CONFIG.fact_check
        ["MEDICAL_CLAIMS", "SENSATIONALISM"] := by
  have h := factcheck_red_flags_stack DEFAULT_CONFIG
    { status := some "completed", flags := ["MEDICAL_CLAIMS", "SENSATIONALISM"] } rfl
  exact h

theorem calculate_trust_score_spec (config : TrustScoreConfig)
    (results : AnalysisResults) :
    (calculate_trust_score config results).final_score =
      round2 (max 0 (min 100 (config.base_score +
        sumImpacts (calculate_trust_score config results).adjustments))) ∧
    (calculate_trust_score config results).grade =
      get_grade_from_score (max 0 (min 100 (config.base_score +
        sumImpacts (calculate_trust_score config results).adjustments))) config :=
  ⟨rfl, rfl⟩

/-- Claim C1 (amended): for every configuration and bundle the reported
`final_score` is the clamp of `base_score` plus the sum of all emitted
impacts, *rounded to two decimal places*; hence `0 ≤ final_score ≤ 100`;
and the grade is the grade-threshold table applied at the clamped but
unrounded score (which can differ from the table at the reported rounded
`final_score`). -/
theorem trust_score_clamped_rounded_bounds (config : TrustScoreConfig)
    (results : AnalysisResults) :
    (calculate_trust_score config results).final_score =
      round2 (max 0 (min 100 (config.base_score +
        sumImpacts (calculate_trust_score config results).adjustments))) ∧
    0 ≤ (calculate_trust_score config results).final_score ∧
    (calculate_trust_score config results).final_score ≤ 100 ∧
    (calculate_trust_score config results).grade =
      get_grade_from_score (max 0 (min 100 (config.base_score +
        sumImpacts (calculate_trust_score config results).adjustments))) config := by
  obtain ⟨hf, hg⟩ := calculate_trust_score_spec config results
  refine ⟨hf, ?_, ?_, hg⟩
  · rw [hf]
    exact round2_nonneg _ (le_max_left 0 _)
  · rw [hf]
    exact round2_le_hundred _ (max_le (by norm_num) (min_le_left _ _))

/-- Counterexample to claim C1 as stated: on `c1Bundle` the unrounded
clamped score is `94.999`, so the reported `final_score` is the rounded
`95.0` — not the clamp itself — and the reported grade (`A`, computed at
`94.999`) differs from the grade-threshold table at the reported
`final_score` (`A+` at `95.0`). -/
theorem trust_score_rounding_counterexample :
    (calculate_trust_score DEFAULT_CONFIG c1Bundle).final_score ≠
      max 0 (min 100 (DEFAULT_CONFIG.base_score +
        sumImpacts (calculate_trust_score DEFAULT_CONFIG c1Bundle).adjustments)) ∧
    (calculate_trust_score DEFAULT_CONFIG c1Bundle).grade ≠
      get_grade_from_score
        (calculate_trust_score DEFAULT_CONFIG c1Bundle).final_score DEFAULT_CONFIG := by
  have hadj : sumImpacts (calculate_trust_score DEFAULT_CONFIG c1Bundle).adjustments =
      -(5001/1000 : ℚ) := by
    simp [calculate_trust_score, c1Bundle, processAiDetection, processOcr,
      processDeepfake, processFactChecking, processSourceCredibility, sumImpacts,
      DEFAULT_CONFIG]
    norm_num
  have hclamp : max (0 : ℚ) (min 100 (DEFAULT_CONFIG.base_score + -(5001/1000 : ℚ))) =
      94999/1000 := by
    have hb : DEFAULT_CONFIG.base_score = (100 : ℚ) := rfl
    rw [hb, show (100 : ℚ) + -(5001/1000) = 94999/1000 by norm_num,
      min_eq_right (by norm_num), max_eq_right (by norm_num)]
  have hfl : ⌊(100 * (94999/1000 : ℚ))⌋ = 9499 := by
    rw [Int.floor_eq_iff]
    norm_num
  have hround : round2 (94999/1000 : ℚ) = 95 := by
    unfold round2 roundHalfEven
    rw [hfl, if_neg (by norm_num), if_pos (by norm_num)]
    norm_num
  obtain ⟨hf, hg⟩ := calculate_trust_score_spec DEFAULT_CONFIG c1Bundle
  have hfinal : (calculate_trust_score DEFAULT_CONFIG c1Bundle).final_score = 95 := by
    rw [hf, hadj, hclamp, hround]
  have hgrade : (calculate_trust_score DEFAULT_CONFIG c1Bundle).grade = "A" := by
    rw [hg, hadj, hclamp, get_grade_default]
    rw [if_neg (by norm_num), if_pos (by norm_num)]
  constructor
  · rw [hfinal, hadj, hclamp]
    norm_num
  · rw [hgrade, hfinal, get_grade_default, if_pos (by norm_num)]
    decide

/-- Witness for C1 (amended) at the default configuration and the empty
bundle. -/
theorem trust_score_clamped_rounded_bounds_witness :
    (calculate_trust_score DEFAULT_CONFIG {}).final_score =
      round2 (max 0 (min 100 (DEFAULT_CONFIG.base_score +
        sumImpacts (calculate_trust_score DEFAULT_CONFIG {}).adjustments))) ∧
    0 ≤ (calculate_trust_score DEFAULT_CONFIG {}).final_score ∧
    (calculate_trust_score DEFAULT_CONFIG {}).final_score ≤ 100 ∧
    (calculate_trust_score DEFAULT_CONFIG {}).grade =
      get_grade_from_score (max 0 (min 100 (DEFAULT_CONFIG.base_score +
        sumImpacts (calculate_trust_score DEFAULT_CONFIG {}).adjustments)))
        DEFAULT_CONFIG :=
  trust_score_clamped_rounded_bounds DEFAULT_CONFIG {}

/-- Witness for C3 (amended) on a row in the `processing` state. -/
theorem crud_status_overwrites_unconditionally_witness :
    (∀ results trust_score processing_time content,
      (update_results_row { status := "processing" } results trust_score
        processing_time content).status = "completed") ∧
    (∀ status error_message,
      (update_status_row { status := "processing" } status error_message).status =
        status) ∧
    (∀ results trust_score processing_time content,
      update_results none results trust_score processing_time content = none) ∧
    (∀ status error_message, update_status none status error_message = none) :=
  crud_status_overwrites_unconditionally { status := "processing" }
